import Mathlib

/-!
Verification development for the Distributed-Notification-System repository:
a shallow embedding of the ingress gateway (`notifications` route), the
per-channel worker consume handlers (`email_service.js`, `push_service.js`),
the template renderer and the uniform response envelope, together with
theorems settling the frozen claims about them.
-/

namespace DNS

/-! ## JavaScript-style helpers

The services use JS truthiness (`x || d`, `if (!x)`) on strings and on the
raw `attempts` field.  These helpers mirror that behaviour on `Option`.
-/

/-- JS `s || d` for an optional string field: absent or empty string is falsy. -/
def jsOr (s : Option String) (d : String) : String :=
  match s with
  | some v => if v = "" then d else v
  | none => d

/-- JS truthiness filter for an optional string: `some v` survives only when nonempty. -/
def jsTruthy (s : Option String) : Option String :=
  match s with
  | some v => if v = "" then none else some v
  | none => none

/-- Mirrors `payload.attempts ? Number(payload.attempts) : 0` (absent or 0 gives 0). -/
def jsAttempts (a : Option Nat) : Nat := a.getD 0

/-! ## Renderer (`render_template` in email_service.js)

The source performs a single left-to-right regex pass
`tpl.replace(/{{\s*([^}]+)\s*}}/g, (_, key) => vars?.[key.trim()] ?? "")`.
Replacement values are spliced into the output and never rescanned.  We embed
this as a scanner that splits the template into literal and placeholder
pieces (`parse_tpl`) and a renderer that substitutes variable values
(`render_pieces`); composing them performs exactly the same single pass.
-/

/-- JS `vars?.[key] ?? ""`: the variable value, or empty for an unknown key. -/
def jsGet (vars : List (String × String)) (key : String) : String :=
  (vars.lookup key).getD ""

/-- Whitespace trim of a char list, as JS `String.prototype.trim` on the key. -/
def trimChars (cs : List Char) : List Char :=
  ((cs.dropWhile Char.isWhitespace).reverse.dropWhile Char.isWhitespace).reverse

/-- Attempt to read a placeholder body after an opening `\x7b\x7b`:
the regex `[^\x7d]+` (at least one char, none of them a closing brace)
followed by the two closing braces.  Returns the raw key and the rest. -/
def splitBraces (cs : List Char) : Option (List Char × List Char) :=
  let r := cs.takeWhile (fun c => c ≠ '\x7d')
  if r.isEmpty then none
  else
    match cs.drop r.length with
    | '\x7d' :: '\x7d' :: rest => some (r, rest)
    | _ => none

/-- A piece of a parsed template: literal text or a (trimmed) placeholder key. -/
inductive Piece where
  | lit (s : List Char)
  | var (key : String)
deriving DecidableEq, Repr

/-- One left-to-right scan of the template, exactly as the global regex
match of `render_template` proceeds: at `\x7b\x7b` try to read a
placeholder; on failure emit one char and rescan from the next position.
Fuel bounds the recursion; `fuel = cs.length` always suffices. -/
def parse_tpl : Nat → List Char → List Piece
  | 0, cs => if cs.isEmpty then [] else [.lit cs]
  | _ + 1, [] => []
  | fuel + 1, '\x7b' :: '\x7b' :: rest =>
    match splitBraces rest with
    | some (key, rest2) => .var (String.mk (trimChars key)) :: parse_tpl fuel rest2
    | none => .lit ['\x7b'] :: parse_tpl fuel ('\x7b' :: rest)
  | fuel + 1, c :: rest => .lit [c] :: parse_tpl fuel rest

/-- Substitute variable values for the placeholders of a parsed template. -/
def render_pieces (vars : List (String × String)) : List Piece → List Char
  | [] => []
  | .lit s :: rest => s ++ render_pieces vars rest
  | .var key :: rest => (jsGet vars key).data ++ render_pieces vars rest

/-- The in-process template table of `render_template`. -/
def welcome_tpl : String :=
  "<p>Hi \x7b\x7bname\x7d\x7d, welcome! Click <a href=\"\x7b\x7blink\x7d\x7d\">here</a>.</p>"

/-- The OTP template of the table. -/
def otp_tpl : String := "<p>Your OTP is: \x7b\x7botp\x7d\x7d</p>"

/-- The fallback template for an unknown `template_code`. -/
def generic_tpl : String := "\x7b\x7bname\x7d\x7d - notification"

/-- `render_template(template_code, vars)` from email_service.js:
select the template (falling back to the generic one) and expand every
placeholder by the variable value, empty for unknown keys. -/
def render_template (template_code : String) (vars : List (String × String)) : String :=
  let tpl :=
    if template_code = "welcome_v1" then welcome_tpl
    else if template_code = "otp_v1" then otp_tpl
    else generic_tpl
  String.mk (render_pieces vars (parse_tpl tpl.data.length tpl.data))

/-- Tag stripping `html.replace(/<[^>]*>/g, "")` used to derive the text body. -/
def stripTags : Nat → List Char → List Char
  | 0, cs => cs
  | _ + 1, [] => []
  | fuel + 1, '<' :: rest =>
    let r := rest.takeWhile (fun c => c ≠ '>')
    (match rest.drop r.length with
     | '>' :: rest2 => stripTags fuel rest2
     | _ => '<' :: stripTags fuel rest)
  | fuel + 1, c :: rest => c :: stripTags fuel rest

/-! ## Worker data model

The bus payload (EnqueuedMessage) as decoded by the workers, the
StatusRecord values they write to the status store, and the observable
effects of one execution of a consume handler.
-/

/-- A primitive JS value, used for the dynamically typed `push_token` field. -/
inductive JsVal where
  | str (s : String)
  | num (n : Int)
  | bool (b : Bool)
  | null
deriving DecidableEq, Repr

/-- JS falsiness of a primitive value. -/
def jsValFalsy : JsVal → Bool
  | .str s => s = ""
  | .num n => n = 0
  | .bool b => !b
  | .null => true

/-- The `metadata` object of a payload: channel-specific recipient fields
plus the optional push presentation fields, each possibly absent. -/
structure Metadata where
  email : Option String := none
  subject : Option String := none
  push_token : Option JsVal := none
  title : Option String := none
  body : Option String := none
  image_url : Option String := none
  data : Option (List (String × String)) := none
deriving DecidableEq, Repr

/-- The decoded bus payload. Every field may be absent in the incoming JSON;
`attempts` is the raw value before the worker normalises it. -/
structure Payload where
  notification_type : Option String := none
  user_id : Option String := none
  template_code : Option String := none
  vars : Option (List (String × String)) := none
  request_id : Option String := none
  notification_id : Option String := none
  priority : Option Nat := none
  metadata : Option Metadata := none
  created_at : Option String := none
  attempts : Option Nat := none
deriving DecidableEq, Repr

/-- Status of a worker-side StatusRecord. -/
inductive Status where
  | processing
  | delivered
  | failed
deriving DecidableEq, Repr

/-- The JSON object a worker writes under its idempotency key. -/
structure StatusRecord where
  notification_id : String
  status : Status
  sent_at : Option String := none
  error : Option String := none
deriving DecidableEq, Repr

/-- The dead-letter payload `{ ...payload, error, failed_at, notification_id }`. -/
structure FailedPayload where
  base : Payload
  error : String
  failed_at : String
  notification_id : String
deriving DecidableEq, Repr

/-- The FCM notification object built by `build_fcm_payload`. -/
structure FcmPayload where
  title : String
  body : String
  imageUrl : Option String
  data : List (String × String)
  android_priority : String
  apns_priority : String
deriving DecidableEq, Repr

/-- An FCM per-device error object, carrying its message. -/
structure FcmError where
  message : String
deriving DecidableEq, Repr

/-- One entry of the per-device `results` array of an FCM response. -/
structure FcmResult where
  error : Option FcmError := none
  messageId : Option String := none
deriving DecidableEq, Repr

/-- An FCM `sendToDevice` response; `results` may be absent. -/
structure FcmResponse where
  results : Option (List FcmResult) := none
deriving DecidableEq, Repr

/-- Observable effects of one execution of a worker consume handler, in
program order.  `redisSet` records a committed status-store write;
`publish` is the immediate dead-letter publish; `scheduleRepublish`
records that a republish to `routingKey` was scheduled to fire `delayMs`
milliseconds later (the `setTimeout` registration); `logError` is the
`logger.error` call opening the catch block, carrying the caught
error's message. -/
inductive Ev where
  | redisGet (key : String)
  | redisSet (key : String) (rec : StatusRecord) (ttlSeconds : Nat)
  | smtpSend (toAddr subject html text : String)
  | fcmSend (token : String) (payload : FcmPayload)
  | logError (err : String)
  | publish (routingKey : String) (fp : FailedPayload)
  | scheduleRepublish (routingKey : String) (p : Payload) (delayMs : Nat)
  | ack
deriving DecidableEq, Repr

/-- How a handler execution ended: normally, or with an uncaught error
escaping the async consume callback (the message is then never acked). -/
inductive Outcome where
  | completed
  | crashed (err : String)
deriving DecidableEq, Repr

/-- Service configuration (defaults from the source). -/
structure Config where
  MAX_ATTEMPTS : Nat := 5
  IDEMPOTENCY_TTL_SECONDS : Nat := 86400
deriving DecidableEq, Repr

/-- The default configuration of both workers. -/
def defaultConfig : Config := {}

/-- The result of a message-decode attempt (`JSON.parse`). -/
inductive Msg where
  | invalidJson
  | ok (p : Payload)
deriving DecidableEq, Repr

/-- Prepend events to a handler result. -/
def prependEvs (es : List Ev) (r : List Ev × Outcome) : List Ev × Outcome :=
  (es ++ r.1, r.2)

/-! ## Worker consume handlers

One execution of the `channel.consume` callback of each worker, as a
function of the decoded message and of the outcomes the environment
returns at each suspension point (status-store calls, the
breaker-wrapped external send, the generated UUIDs, the clock).
-/

/-- The environment outcomes one email-handler execution can observe. -/
structure EmailOracles where
  genRequestId : String
  genNotificationId : String
  getResult : Except String (Option StatusRecord)
  setProcessing : Except String Unit := .ok ()
  sendResult : Except String Unit := .ok ()
  setDelivered : Except String Unit := .ok ()
  setFailed : Except String Unit := .ok ()
  now : String := ""

/-- The environment outcomes one push-handler execution can observe. -/
structure PushOracles where
  genRequestId : String
  genNotificationId : String
  getResult : Except String (Option StatusRecord)
  setProcessing : Except String Unit := .ok ()
  sendResult : Except String FcmResponse := .ok {}
  setDelivered : Except String Unit := .ok ()
  setFailed : Except String Unit := .ok ()
  now : String := ""

/-- The catch block shared verbatim by both workers: increment
`payload.attempts`; if the result reaches `MAX_ATTEMPTS`, publish the
failed payload to the `failed` routing key, write the `failed` record,
and ack; otherwise schedule a republish to the worker's own routing key
after `2000 * 2 ^ (attempts - 1)` ms and ack at once.  A failure of the
`failed`-record write is uncaught (it happens inside the catch block), so
the handler crashes after the dead-letter publish, without an ack. -/
def worker_catch (cfg : Config) (setFailed : Except String Unit) (now : String)
    (routingKey : String) (p : Payload) (nid key err : String) : List Ev × Outcome :=
  let attempts1 := jsAttempts p.attempts + 1
  let p1 := { p with attempts := some attempts1 }
  if cfg.MAX_ATTEMPTS ≤ attempts1 then
    match setFailed with
    | .ok _ =>
      ([.logError err,
        .publish "failed" { base := p1, error := err, failed_at := now, notification_id := nid },
        .redisSet key { notification_id := nid, status := .failed, error := some err }
          cfg.IDEMPOTENCY_TTL_SECONDS,
        .ack], .completed)
    | .error e =>
      ([.logError err,
        .publish "failed" { base := p1, error := err, failed_at := now, notification_id := nid }],
       .crashed e)
  else
    ([.logError err,
      .scheduleRepublish routingKey p1 (2000 * 2 ^ (attempts1 - 1)),
      .ack], .completed)

/-- The worker-side idempotency key of the email channel for a delivery. -/
def emailKey (o : EmailOracles) (p : Payload) : String :=
  "email:idempotency:" ++ jsOr p.request_id o.genRequestId

/-- The `try` block of the email handler: recipient check, render, send
through the breaker, delivered-mark write, ack; any raised error falls
into `worker_catch`. -/
def emailTry (cfg : Config) (o : EmailOracles) (p : Payload) (nid key : String) :
    List Ev × Outcome :=
  match jsTruthy (p.metadata.bind (fun m => m.email)) with
  | none => worker_catch cfg o.setFailed o.now "email" p nid key
      "recipient email missing in metadata.email"
  | some toAddr =>
    let html := render_template (p.template_code.getD "") (p.vars.getD [])
    let text := String.mk (stripTags html.data.length html.data)
    let subject := jsOr (p.metadata.bind (fun m => m.subject)) "Notification"
    match o.sendResult with
    | .error e =>
      prependEvs [.smtpSend toAddr subject html text]
        (worker_catch cfg o.setFailed o.now "email" p nid key e)
    | .ok _ =>
      match o.setDelivered with
      | .error e =>
        prependEvs [.smtpSend toAddr subject html text]
          (worker_catch cfg o.setFailed o.now "email" p nid key e)
      | .ok _ =>
        ([.smtpSend toAddr subject html text,
          .redisSet key { notification_id := nid, status := .delivered, sent_at := some o.now }
            cfg.IDEMPOTENCY_TTL_SECONDS,
          .ack], .completed)

/-- One execution of the email consume callback (email_service.js):
decode guard, id normalisation, idempotency check and `processing` write
(both outside the `try`, so their failures crash the handler), then the
`try` block. -/
def emailHandler (cfg : Config) (o : EmailOracles) (msg : Msg) : List Ev × Outcome :=
  match msg with
  | .invalidJson => ([.ack], .completed)
  | .ok p =>
    let nid := jsOr p.notification_id o.genNotificationId
    let key := emailKey o p
    match o.getResult with
    | .error e => ([.redisGet key], .crashed e)
    | .ok (some _) => ([.redisGet key, .ack], .completed)
    | .ok none =>
      match o.setProcessing with
      | .error e => ([.redisGet key], .crashed e)
      | .ok _ =>
        prependEvs
          [.redisGet key,
           .redisSet key { notification_id := nid, status := .processing }
             cfg.IDEMPOTENCY_TTL_SECONDS]
          (emailTry cfg o p nid key)

/-- `build_fcm_payload(metadata, variables)` from push_service.js. -/
def build_fcm_payload (metadata : Option Metadata) (vars : Option (List (String × String))) :
    FcmPayload :=
  { title := jsOr (metadata.bind (fun m => m.title))
      (jsOr (vars.bind (fun v => v.lookup "title")) "Notification")
    body := jsOr (metadata.bind (fun m => m.body))
      (jsOr (vars.bind (fun v => v.lookup "body"))
        (match jsTruthy (vars.bind (fun v => v.lookup "name")) with
         | some n => "Hi " ++ n
         | none => "You have a notification"))
    imageUrl := metadata.bind (fun m => m.image_url)
    data := (metadata.bind (fun m => m.data)).getD []
    android_priority := "high"
    apns_priority := "10" }

/-- The message of the first entry of an FCM `results` array that carries
an error (`results.find(r => r.error).error.message || "fcm_error"`). -/
def firstFcmError (rs : List FcmResult) : String :=
  match rs.find? (fun r => r.error.isSome) with
  | some r =>
    match r.error with
    | some fe => if fe.message = "" then "fcm_error" else fe.message
    | none => "fcm_error"
  | none => "fcm_error"

/-- The worker-side idempotency key of the push channel for a delivery. -/
def pushKey (o : PushOracles) (p : Payload) : String :=
  "push:idempotency:" ++ jsOr p.request_id o.genRequestId

/-- The `try` block of the push handler: token checks, FCM send through
the breaker, per-device result analysis, delivered-mark write, ack. -/
def pushTry (cfg : Config) (o : PushOracles) (p : Payload) (nid key : String) :
    List Ev × Outcome :=
  match p.metadata.bind (fun m => m.push_token) with
  | none => worker_catch cfg o.setFailed o.now "push" p nid key "push_token_missing"
  | some t =>
    if jsValFalsy t then
      worker_catch cfg o.setFailed o.now "push" p nid key "push_token_missing"
    else
      match t with
      | .str s =>
        if s.length < 10 then
          worker_catch cfg o.setFailed o.now "push" p nid key "invalid_push_token"
        else
          let fcm := build_fcm_payload p.metadata p.vars
          match o.sendResult with
          | .error e =>
            prependEvs [.fcmSend s fcm] (worker_catch cfg o.setFailed o.now "push" p nid key e)
          | .ok resp =>
            match resp.results with
            | some rs =>
              if rs.any (fun r => r.error.isSome) then
                prependEvs [.fcmSend s fcm]
                  (worker_catch cfg o.setFailed o.now "push" p nid key (firstFcmError rs))
              else
                ([.fcmSend s fcm,
                  .redisSet key
                    { notification_id := nid, status := .delivered, sent_at := some o.now }
                    cfg.IDEMPOTENCY_TTL_SECONDS,
                  .ack], .completed)
            | none =>
              ([.fcmSend s fcm,
                .redisSet key
                  { notification_id := nid, status := .delivered, sent_at := some o.now }
                  cfg.IDEMPOTENCY_TTL_SECONDS,
                .ack], .completed)
      | _ => worker_catch cfg o.setFailed o.now "push" p nid key "invalid_push_token"

/-- One execution of the push consume callback (push_service.js). -/
def pushHandler (cfg : Config) (o : PushOracles) (msg : Msg) : List Ev × Outcome :=
  match msg with
  | .invalidJson => ([.ack], .completed)
  | .ok p =>
    let nid := jsOr p.notification_id o.genNotificationId
    let key := pushKey o p
    match o.getResult with
    | .error e => ([.redisGet key], .crashed e)
    | .ok (some _) => ([.redisGet key, .ack], .completed)
    | .ok none =>
      match o.setProcessing with
      | .error e => ([.redisGet key], .crashed e)
      | .ok _ =>
        prependEvs
          [.redisGet key,
           .redisSet key { notification_id := nid, status := .processing }
             cfg.IDEMPOTENCY_TTL_SECONDS]
          (pushTry cfg o p nid key)

/-! ## Trace observations -/

/-- Is the event an ack. -/
def isAck : Ev → Bool
  | .ack => true
  | _ => false

/-- Is the event an external send invocation (SMTP or FCM). -/
def isSend : Ev → Bool
  | .smtpSend _ _ _ _ => true
  | .fcmSend _ _ => true
  | _ => false

/-- Is the event a scheduled retry republish. -/
def isRetry : Ev → Bool
  | .scheduleRepublish _ _ _ => true
  | _ => false

/-- Number of acks performed in a trace. -/
def countAcks (t : List Ev) : Nat := (t.filter isAck).length

/-- Number of external send invocations in a trace. -/
def countSends (t : List Ev) : Nat := (t.filter isSend).length

/-- Replay the committed status-store writes of a trace over a store,
modelled as an association list from key to record. -/
def applyWrites (store : List (String × StatusRecord)) : List Ev → List (String × StatusRecord)
  | [] => store
  | .redisSet k r _ :: rest =>
    applyWrites ((k, r) :: store.filter (fun e => e.1 ≠ k)) rest
  | _ :: rest => applyWrites store rest

/-! ## JSON values and the uniform response envelope -/

/-- A JSON value as serialised into an HTTP response body. -/
inductive Json where
  | null
  | bool (b : Bool)
  | num (n : Int)
  | str (s : String)
  | obj (fields : List (String × Json))

/-- The default `meta` object of `createResponse` (utils/response.js). -/
def defaultMeta : List (String × Json) :=
  [("total", .num 0), ("limit", .num 0), ("page", .num 0), ("total_pages", .num 0),
   ("has_next", .bool false), ("has_previous", .bool false)]

/-- `Object.assign(defaultMeta, meta)`: every default key keeps its place,
overridden by `meta` when present; extra keys of `meta` are appended. -/
def assignMeta (base extra : List (String × Json)) : List (String × Json) :=
  base.map (fun kv => (kv.1, (extra.lookup kv.1).getD kv.2)) ++
    extra.filter (fun kv => (base.lookup kv.1).isNone)

/-- `createResponse({success, data, error, message, meta})` from
utils/response.js: the uniform envelope; `data`/`error` are omitted when
null (JSON serialisation drops `undefined` fields) and `meta` is the
default meta merged with the given one. -/
def createResponse (success : Bool) (data : Option Json) (error : Option String)
    (message : String) (meta : Option (List (String × Json))) : Json :=
  .obj ([("success", .bool success)] ++
    (match data with | some d => [("data", d)] | none => []) ++
    (match error with | some e => [("error", .str e)] | none => []) ++
    [("message", .str message), ("meta", .obj (assignMeta defaultMeta (meta.getD [])))])

/-- Does a response body validate against the uniform envelope schema:
`success` boolean, `message` string, optional `data`, optional string
`error`, and a `meta` object containing the six pagination fields. -/
def validatesEnvelope : Json → Bool
  | .obj fields =>
    (match fields.lookup "success" with | some (.bool _) => true | _ => false) &&
    (match fields.lookup "message" with | some (.str _) => true | _ => false) &&
    (match fields.lookup "error" with
     | some (.str _) => true | none => true | some _ => false) &&
    (match fields.lookup "meta" with
     | some (.obj m) =>
       ["total", "limit", "page", "total_pages", "has_next", "has_previous"].all
         (fun k => (m.lookup k).isSome)
     | _ => false)
  | _ => false

/-- The 404 body of the email worker's `GET /status/:request_id`
(email_service.js): `meta` is null, not a meta object. -/
def emailStatusNotFoundBody : Json :=
  .obj [("success", .bool false), ("message", .str "not_found"),
        ("error", .str "no status for given request_id"), ("meta", Json.null)]

/-- The 200 body of the email worker's `GET /status/:request_id`. -/
def emailStatusOkBody (data : Json) : Json :=
  .obj [("success", .bool true), ("data", data), ("message", .str "ok"), ("meta", Json.null)]

/-- The 404 body of the push worker's `GET /status/:request_id`
(push_service.js, same shape as the email worker's). -/
def pushStatusNotFoundBody : Json :=
  .obj [("success", .bool false), ("message", .str "not_found"),
        ("error", .str "no status for given request_id"), ("meta", Json.null)]

/-- The 200 body of the push worker's `GET /status/:request_id`. -/
def pushStatusOkBody (data : Json) : Json :=
  .obj [("success", .bool true), ("data", data), ("message", .str "ok"), ("meta", Json.null)]

/-- The email worker status route: 404 with the not-found envelope when
the store holds nothing for the key, else 200 with the parsed record. -/
def email_status_route (stored : Option Json) : Nat × Json :=
  match stored with
  | none => (404, emailStatusNotFoundBody)
  | some d => (200, emailStatusOkBody d)

/-! ## Ingress gateway: the notifications route

`POST /api/v1/notifications/` (notifications route of the gateway),
modelled over the raw ioredis client the route uses.  `redis.set` is
embedded at the command level: ioredis flattens its arguments into the
Redis `SET` command, so the route's `set(key, value, ttlSeconds)` call
sends `SET key value <ttl>` — without the `EX` token.
-/

/-- The body of `POST /api/v1/notifications/` after fastify schema
validation (the required fields of `notificationPayloadSchema` are
guaranteed present). -/
structure NotificationBody where
  notification_type : String
  user_id : String
  template_code : String
  vars : List (String × String)
  request_id : String
  priority : Option Nat := none
  metadata : Option Metadata := none
deriving DecidableEq, Repr

/-- The bus message of a submission: `{ ...payload, created_at }`. -/
structure PublishedMessage where
  body : NotificationBody
  created_at : String
deriving DecidableEq, Repr

/-- Observable effects of one gateway-route execution, in program order.
`redisCmd` is a raw command sent to Redis (as flattened by ioredis). -/
inductive GwEv where
  | redisGet (key : String)
  | redisCmd (args : List String)
  | publish (routingKey : String) (message : PublishedMessage) (priorityHeader : Nat)
deriving DecidableEq, Repr

/-- How the route run ended: an HTTP reply, or an uncaught rejection
(fastify then produces a generic 500, outside the route's code). -/
inductive GwOutcome where
  | reply (status : Nat) (body : Json)
  | crashed (err : String)

/-- The raw command ioredis sends for `redis.set(key, value, ...args)`:
all arguments are flattened after the `SET` verb. -/
def ioredisSetCmd (key value : String) (args : List String) : List String :=
  "SET" :: key :: value :: args

/-- Is the string a nonempty run of digits (a well-formed integer argument). -/
def isDigits (s : String) : Bool :=
  s ≠ "" && s.data.all Char.isDigit

/-- The option grammar the Redis server accepts after `SET key value`:
expiry options take a numeric argument, the flag options stand alone.
A bare number (as the gateway sends) is a syntax error. -/
def validSetOpts : List String → Bool
  | [] => true
  | "EX" :: n :: rest => isDigits n && validSetOpts rest
  | "PX" :: n :: rest => isDigits n && validSetOpts rest
  | "EXAT" :: n :: rest => isDigits n && validSetOpts rest
  | "PXAT" :: n :: rest => isDigits n && validSetOpts rest
  | "NX" :: rest => validSetOpts rest
  | "XX" :: rest => validSetOpts rest
  | "GET" :: rest => validSetOpts rest
  | "KEEPTTL" :: rest => validSetOpts rest
  | _ => false

/-- Redis `SET` execution over a string store: commit the write when the
options are well formed, reply with a syntax error otherwise. -/
def redisExecSet (store : List (String × String)) (key value : String)
    (opts : List String) : Except String (List (String × String)) :=
  if validSetOpts opts then .ok ((key, value) :: store.filter (fun e => e.1 ≠ key))
  else .error "ERR syntax error"

/-- The stringified admission record `JSON.stringify({status:"pending"})`. -/
def pendingRecordStr : String := "\x7b\"status\":\"pending\"\x7d"

/-- The stringified failure record `JSON.stringify({status:"failed", error})`. -/
def failedRecordStr (err : String) : String :=
  "\x7b\"status\":\"failed\",\"error\":\"" ++ err ++ "\"\x7d"

/-- The `meta` passed on the duplicate-request reply of the route. -/
def duplicateMeta : List (String × Json) :=
  [("total", .num 1), ("limit", .num 1), ("page", .num 1), ("total_pages", .num 1),
   ("has_next", .bool false), ("has_previous", .bool false)]

/-- One execution of the `POST /notifications/` route handler
(notifications route): API-key check, idempotency read, `pending` write
with the TTL passed as a bare third argument, publish, and the reply.
Returns the events, the outcome, and the resulting store. -/
def notifications_post (API_KEY : String) (ttl : Nat) (store : List (String × String))
    (api_key : Option String) (body : NotificationBody)
    (publishResult : Except String Unit) (now : String) :
    List GwEv × GwOutcome × List (String × String) :=
  match jsTruthy api_key with
  | none =>
    ([], .reply 401 (createResponse false none (some "invalid api key") "unauthorized" none),
     store)
  | some k =>
    if k ≠ API_KEY then
      ([], .reply 401 (createResponse false none (some "invalid api key") "unauthorized" none),
       store)
    else
      let key := "idemp:" ++ body.request_id
      match jsTruthy (store.lookup key) with
      | some v =>
        ([.redisGet key],
         .reply 200 (createResponse true (some (.str v)) none "duplicate_request"
           (some duplicateMeta)),
         store)
      | none =>
        let message : PublishedMessage := { body := body, created_at := now }
        let setCmd := ioredisSetCmd key pendingRecordStr [toString ttl]
        match redisExecSet store key pendingRecordStr [toString ttl] with
        | .error e => ([.redisGet key, .redisCmd setCmd], .crashed e, store)
        | .ok store1 =>
          match publishResult with
          | .ok _ =>
            ([.redisGet key, .redisCmd setCmd,
              .publish body.notification_type message (body.priority.getD 0)],
             .reply 202 (createResponse true (some (.obj [("request_id", .str body.request_id)]))
               none "accepted" none),
             store1)
          | .error e =>
            let setCmd2 := ioredisSetCmd key (failedRecordStr e) [toString ttl]
            match redisExecSet store1 key (failedRecordStr e) [toString ttl] with
            | .error e2 =>
              ([.redisGet key, .redisCmd setCmd, .redisCmd setCmd2], .crashed e2, store1)
            | .ok store2 =>
              ([.redisGet key, .redisCmd setCmd, .redisCmd setCmd2],
               .reply 500 (createResponse false none (some e) "publish_error" none),
               store2)

/-- Is a gateway event a bus publish. -/
def isGwPublish : GwEv → Bool
  | .publish _ _ _ => true
  | _ => false

/-! ## Concrete scenario inputs used by the closed-form theorems -/

/-- A welcome email submission (scenario: first SMTP send fails transiently). -/
def c1_payload : Payload :=
  { request_id := some "r1", user_id := some "u1", template_code := some "welcome_v1",
    vars := some [("name", "Ada"), ("link", "https://x")],
    metadata := some { email := some "a@x" } }

/-- Environment of the first delivery: fresh status key, SMTP send fails. -/
def c1_first_oracles : EmailOracles :=
  { genRequestId := "gr1", genNotificationId := "gn1",
    getResult := .ok none, sendResult := .error "smtp_down", now := "t1" }

/-- First delivery of the scenario. -/
def c1_first_run : List Ev × Outcome := emailHandler defaultConfig c1_first_oracles (.ok c1_payload)

/-- The status store after the first delivery's committed writes. -/
def c1_store_after_first : List (String × StatusRecord) := applyWrites [] c1_first_run.1

/-- The payload the first delivery schedules for republish (attempts = 1). -/
def c1_retry_payload : Payload := { c1_payload with attempts := some 1 }

/-- Environment of the redelivery: the status store read returns whatever
the first delivery left under the idempotency key; SMTP would now succeed. -/
def c1_second_oracles : EmailOracles :=
  { genRequestId := "gr2", genNotificationId := "gn2",
    getResult := .ok (c1_store_after_first.lookup "email:idempotency:r1"),
    sendResult := .ok (), now := "t2" }

/-- The redelivery of the republished message. -/
def c1_second_run : List Ev × Outcome :=
  emailHandler defaultConfig c1_second_oracles (.ok c1_retry_payload)

/-- A well-formed authenticated first submission for the gateway route. -/
def c2_body : NotificationBody :=
  { notification_type := "email", user_id := "u1", template_code := "welcome_v1",
    vars := [("name", "Ada")], request_id := "r1" }

/-- An email-worker environment whose status-store read fails. -/
def c3_failing_oracles : EmailOracles :=
  { genRequestId := "gr", genNotificationId := "gn", getResult := .error "redis_down" }

/-- An email-worker environment whose status-store operations all succeed. -/
def c3_healthy_oracles : EmailOracles :=
  { genRequestId := "gr", genNotificationId := "gn", getResult := .ok none }

/-- A push-worker environment with a fresh status key. -/
def c7_push_oracles : PushOracles :=
  { genRequestId := "gr", genNotificationId := "gn", getResult := .ok none }

/-! ## Helper lemmas -/

/-- Acks of a concatenated trace add up. -/
theorem countAcks_append (a b : List Ev) : countAcks (a ++ b) = countAcks a + countAcks b := by
  simp [countAcks, List.filter_append]

/-- When the dead-letter status write succeeds, the catch block always
completes with exactly one ack, in both of its branches. -/
theorem worker_catch_ok (cfg : Config) (now rk : String) (p : Payload) (nid key err : String) :
    countAcks (worker_catch cfg (.ok ()) now rk p nid key err).1 = 1 ∧
      (worker_catch cfg (.ok ()) now rk p nid key err).2 = .completed := by
  simp only [worker_catch]
  split <;> simp [countAcks, isAck]

/-- Every path of the email try block ends completed with exactly one ack,
provided the dead-letter status write succeeds when reached. -/
theorem emailTry_ok (cfg : Config) (o : EmailOracles) (p : Payload) (nid key : String)
    (hsetf : o.setFailed = .ok ()) :
    countAcks (emailTry cfg o p nid key).1 = 1 ∧ (emailTry cfg o p nid key).2 = .completed := by
  unfold emailTry
  split
  · rw [hsetf]; exact worker_catch_ok ..
  · split
    · rw [hsetf]
      simpa [prependEvs, countAcks_append, countAcks, isAck] using worker_catch_ok ..
    · split
      · rw [hsetf]
        simpa [prependEvs, countAcks_append, countAcks, isAck] using worker_catch_ok ..
      · simp [countAcks, isAck]

/-! ## Claim theorems -/

/-- C5: in the dead-letter path (attempts after increment at least
MAX_ATTEMPTS) the worker performs, in order: the publish of the failed
payload (the message plus `error`, `failed_at`, `notification_id`) to the
`failed` routing key, then the write of the `failed` StatusRecord carrying
the error, and both strictly before the ack of the originating delivery.
The first conjunct settles it for the shared catch block of both workers
(any error source); the second exhibits the full email-handler trace for a
delivery whose breaker-wrapped send fails. -/
theorem claim_c5_dead_letter_order :
    (∀ (cfg : Config) (now rk : String) (p : Payload) (nid key err : String),
      cfg.MAX_ATTEMPTS ≤ jsAttempts p.attempts + 1 →
      worker_catch cfg (.ok ()) now rk p nid key err =
        ([.logError err,
          .publish "failed"
            { base := { p with attempts := some (jsAttempts p.attempts + 1) },
              error := err, failed_at := now, notification_id := nid },
          .redisSet key { notification_id := nid, status := .failed, error := some err }
            cfg.IDEMPOTENCY_TTL_SECONDS,
          .ack], .completed)) ∧
    (∀ (cfg : Config) (o : EmailOracles) (p : Payload) (e toAddr : String),
      o.getResult = .ok none → o.setProcessing = .ok () → o.setFailed = .ok () →
      jsTruthy (p.metadata.bind (fun m => m.email)) = some toAddr →
      o.sendResult = .error e →
      cfg.MAX_ATTEMPTS ≤ jsAttempts p.attempts + 1 →
      (emailHandler cfg o (.ok p)).1 =
        [.redisGet (emailKey o p),
         .redisSet (emailKey o p)
           { notification_id := jsOr p.notification_id o.genNotificationId,
             status := .processing }
           cfg.IDEMPOTENCY_TTL_SECONDS,
         .smtpSend toAddr (jsOr (p.metadata.bind (fun m => m.subject)) "Notification")
           (render_template (p.template_code.getD "") (p.vars.getD []))
           (String.mk
             (stripTags (render_template (p.template_code.getD "") (p.vars.getD [])).data.length
               (render_template (p.template_code.getD "") (p.vars.getD [])).data))] ++
        [.logError e,
         .publish "failed"
           { base := { p with attempts := some (jsAttempts p.attempts + 1) },
             error := e, failed_at := o.now,
             notification_id := jsOr p.notification_id o.genNotificationId },
         .redisSet (emailKey o p)
           { notification_id := jsOr p.notification_id o.genNotificationId,
             status := .failed, error := some e }
           cfg.IDEMPOTENCY_TTL_SECONDS,
         .ack]) := by
  constructor
  · intro cfg now rk p nid key err h
    unfold worker_catch
    rw [if_pos h]
  · intro cfg o p e toAddr hget hset hsetf hem hsend h
    simp only [emailHandler, hget, hset, emailTry, hem, hsend, hsetf, worker_catch,
      if_pos h, prependEvs]
    simp

/-- Witness for C5: a delivery at attempts 4 of 5 whose send failed. -/
theorem claim_c5_dead_letter_order_witness :
    worker_catch defaultConfig (.ok ()) "t9" "email" { attempts := some 4 } "n1" "k1" "boom" =
      ([.logError "boom",
        .publish "failed"
          { base := { attempts := some 5 }, error := "boom", failed_at := "t9",
            notification_id := "n1" },
        .redisSet "k1" { notification_id := "n1", status := .failed, error := some "boom" } 86400,
        .ack], .completed) :=
  claim_c5_dead_letter_order.1 defaultConfig "t9" "email" { attempts := some 4 } "n1" "k1" "boom"
    (by decide)

/-- C6: when the kth failure happens with attempts = k below MAX_ATTEMPTS,
the catch block schedules the republish to the worker's own routing key
with a delay of exactly 2000·2^(k-1) milliseconds and acks the original
delivery as an immediate event of the same trace; the delay is positive,
so the ack happens before the scheduled republish can fire. -/
theorem claim_c6_retry_backoff (cfg : Config) (setF : Except String Unit) (now rk : String)
    (p : Payload) (nid key err : String)
    (h : jsAttempts p.attempts + 1 < cfg.MAX_ATTEMPTS) :
    worker_catch cfg setF now rk p nid key err =
      ([.logError err,
        .scheduleRepublish rk { p with attempts := some (jsAttempts p.attempts + 1) }
          (2000 * 2 ^ (jsAttempts p.attempts + 1 - 1)),
        .ack], .completed) ∧
    0 < 2000 * 2 ^ (jsAttempts p.attempts + 1 - 1) := by
  constructor
  · unfold worker_catch
    rw [if_neg (by omega)]
  · positivity

/-- Witness for C6: a first failure (attempts absent, so k = 1) is
republished after 2000 ms. -/
theorem claim_c6_retry_backoff_witness :
    worker_catch defaultConfig (.ok ()) "t9" "email" {} "n1" "k1" "boom" =
      ([.logError "boom", .scheduleRepublish "email" { attempts := some 1 } 2000, .ack],
       .completed) ∧
    (0 : Nat) < 2000 :=
  claim_c6_retry_backoff defaultConfig (.ok ()) "t9" "email" {} "n1" "k1" "boom" (by decide)

/-- C10: the payload republished on retry is the decoded payload with only
`attempts` replaced by its normalised value plus one; in particular
`request_id` and `notification_id` are carried over unchanged (still
absent when they were absent), so identifiers freshly generated during a
delivery are not written back, and a redelivery of an id-less message runs
under newly generated identifiers (its idempotency key is built from the
receiving handler's own generated request id). -/
theorem claim_c10_republish_frame :
    (∀ (cfg : Config) (setF : Except String Unit) (now rk : String)
       (p : Payload) (nid key err : String),
      jsAttempts p.attempts + 1 < cfg.MAX_ATTEMPTS →
      worker_catch cfg setF now rk p nid key err =
        ([.logError err,
          .scheduleRepublish rk { p with attempts := some (jsAttempts p.attempts + 1) }
            (2000 * 2 ^ jsAttempts p.attempts),
          .ack], .completed) ∧
      ({ p with attempts := some (jsAttempts p.attempts + 1) } : Payload).request_id =
        p.request_id ∧
      ({ p with attempts := some (jsAttempts p.attempts + 1) } : Payload).notification_id =
        p.notification_id ∧
      ({ p with attempts := some (jsAttempts p.attempts + 1) } : Payload).metadata =
        p.metadata ∧
      ({ p with attempts := some (jsAttempts p.attempts + 1) } : Payload).template_code =
        p.template_code ∧
      ({ p with attempts := some (jsAttempts p.attempts + 1) } : Payload).vars = p.vars) ∧
    (∀ (cfg : Config) (o : EmailOracles) (p : Payload),
      p.request_id = none →
      (emailHandler cfg o (.ok p)).1.head? =
        some (.redisGet ("email:idempotency:" ++ o.genRequestId))) ∧
    (∀ (cfg : Config) (o : PushOracles) (p : Payload),
      p.request_id = none →
      (pushHandler cfg o (.ok p)).1.head? =
        some (.redisGet ("push:idempotency:" ++ o.genRequestId))) := by
  refine ⟨?_, ?_, ?_⟩
  · intro cfg setF now rk p nid key err h
    refine ⟨?_, rfl, rfl, rfl, rfl, rfl⟩
    simp only [worker_catch]
    rw [if_neg (by omega)]
    simp
  · intro cfg o p hreq
    have hk : emailKey o p = "email:idempotency:" ++ o.genRequestId := by
      simp [emailKey, hreq, jsOr]
    rcases hg : o.getResult with e | r
    · simp [emailHandler, hg, hk]
    · cases r <;> simp only [emailHandler, hg, hk] <;>
        rcases hs : o.setProcessing with e | u <;> simp [hs, prependEvs]
  · intro cfg o p hreq
    have hk : pushKey o p = "push:idempotency:" ++ o.genRequestId := by
      simp [pushKey, hreq, jsOr]
    rcases hg : o.getResult with e | r
    · simp [pushHandler, hg, hk]
    · cases r <;> simp only [pushHandler, hg, hk] <;>
        rcases hs : o.setProcessing with e | u <;> simp [hs, prependEvs]

/-- Witness for C10: the retry republish of a first failure, and the key
a redelivery without request_id is checked under. -/
theorem claim_c10_republish_frame_witness :
    (worker_catch defaultConfig (.ok ()) "t9" "email" {} "n1" "k1" "boom" =
      ([.logError "boom", .scheduleRepublish "email" { attempts := some 1 } 2000, .ack],
       .completed) ∧
     ({} : Payload).request_id = ({} : Payload).request_id ∧
     ({} : Payload).notification_id = ({} : Payload).notification_id ∧
     ({} : Payload).metadata = ({} : Payload).metadata ∧
     ({} : Payload).template_code = ({} : Payload).template_code ∧
     ({} : Payload).vars = ({} : Payload).vars) ∧
    (emailHandler defaultConfig c3_healthy_oracles (.ok {})).1.head? =
      some (.redisGet ("email:idempotency:" ++ "gr")) :=
  ⟨claim_c10_republish_frame.1 defaultConfig (.ok ()) "t9" "email" {} "n1" "k1" "boom"
     (by decide),
   claim_c10_republish_frame.2.1 defaultConfig c3_healthy_oracles {} rfl⟩

/-- C3 counterexample: a delivery whose status-store read fails.  The
error is raised outside the try/catch of the consume handler, so it is
not treated as a delivery error: the handler crashes, no retry is
scheduled, and the message is never acked — refuting both "enters the
retry ladder" and "every handling path ends with exactly one ack". -/
theorem claim_c3_infra_crash_counterexample :
    emailHandler defaultConfig c3_failing_oracles (.ok {}) =
      ([.redisGet "email:idempotency:gr"], .crashed "redis_down") ∧
    countAcks (emailHandler defaultConfig c3_failing_oracles (.ok {})).1 = 0 ∧
    (emailHandler defaultConfig c3_failing_oracles (.ok {})).1.filter isRetry = [] := by
  refine ⟨?_, ?_, ?_⟩ <;> decide

/-- C3 (amended): when the status-store operations succeed (the
idempotency read, the `processing` write, and the dead-letter write when
reached), the email worker never crashes on a per-message error and every
handling path ends with exactly one ack (part 1).  A status-store failure
in the idempotency phase — the get (part 2) or the `processing` write
(part 3), both outside the try/catch — is not treated as a delivery
error: it propagates out of the handler uncaught, with no ack and no
retry scheduled.  A delivery error inside the try block does enter the
retry ladder (the catch block), whether it is the breaker-wrapped send
failing (part 4) or the status store failing on the delivered-mark write
(part 5); in both cases a republish is scheduled whenever the incremented
attempts stay below MAX_ATTEMPTS. -/
theorem claim_c3_infra_error_handling :
    (∀ (cfg : Config) (o : EmailOracles) (msg : Msg) (r : Option StatusRecord),
      o.getResult = .ok r → o.setProcessing = .ok () → o.setFailed = .ok () →
      countAcks (emailHandler cfg o msg).1 = 1 ∧
        (emailHandler cfg o msg).2 = .completed) ∧
    (∀ (cfg : Config) (o : EmailOracles) (p : Payload) (e : String),
      o.getResult = .error e →
      emailHandler cfg o (.ok p) = ([.redisGet (emailKey o p)], .crashed e) ∧
      countAcks (emailHandler cfg o (.ok p)).1 = 0 ∧
      (emailHandler cfg o (.ok p)).1.filter isRetry = []) ∧
    (∀ (cfg : Config) (o : EmailOracles) (p : Payload) (e : String),
      o.getResult = .ok none → o.setProcessing = .error e →
      emailHandler cfg o (.ok p) = ([.redisGet (emailKey o p)], .crashed e) ∧
      countAcks (emailHandler cfg o (.ok p)).1 = 0 ∧
      (emailHandler cfg o (.ok p)).1.filter isRetry = []) ∧
    (∀ (cfg : Config) (o : EmailOracles) (p : Payload) (e toAddr : String),
      o.getResult = .ok none → o.setProcessing = .ok () →
      jsTruthy (p.metadata.bind (fun m => m.email)) = some toAddr →
      o.sendResult = .error e →
      emailHandler cfg o (.ok p) =
        prependEvs
          [.redisGet (emailKey o p),
           .redisSet (emailKey o p)
             { notification_id := jsOr p.notification_id o.genNotificationId,
               status := .processing }
             cfg.IDEMPOTENCY_TTL_SECONDS,
           .smtpSend toAddr (jsOr (p.metadata.bind (fun m => m.subject)) "Notification")
             (render_template (p.template_code.getD "") (p.vars.getD []))
             (String.mk
               (stripTags (render_template (p.template_code.getD "") (p.vars.getD [])).data.length
                 (render_template (p.template_code.getD "") (p.vars.getD [])).data))]
          (worker_catch cfg o.setFailed o.now "email" p
            (jsOr p.notification_id o.genNotificationId) (emailKey o p) e) ∧
      (jsAttempts p.attempts + 1 < cfg.MAX_ATTEMPTS →
        (emailHandler cfg o (.ok p)).1.filter isRetry =
          [.scheduleRepublish "email" { p with attempts := some (jsAttempts p.attempts + 1) }
            (2000 * 2 ^ jsAttempts p.attempts)])) ∧
    (∀ (cfg : Config) (o : EmailOracles) (p : Payload) (e toAddr : String),
      o.getResult = .ok none → o.setProcessing = .ok () →
      jsTruthy (p.metadata.bind (fun m => m.email)) = some toAddr →
      o.sendResult = .ok () → o.setDelivered = .error e →
      emailHandler cfg o (.ok p) =
        prependEvs
          [.redisGet (emailKey o p),
           .redisSet (emailKey o p)
             { notification_id := jsOr p.notification_id o.genNotificationId,
               status := .processing }
             cfg.IDEMPOTENCY_TTL_SECONDS,
           .smtpSend toAddr (jsOr (p.metadata.bind (fun m => m.subject)) "Notification")
             (render_template (p.template_code.getD "") (p.vars.getD []))
             (String.mk
               (stripTags (render_template (p.template_code.getD "") (p.vars.getD [])).data.length
                 (render_template (p.template_code.getD "") (p.vars.getD [])).data))]
          (worker_catch cfg o.setFailed o.now "email" p
            (jsOr p.notification_id o.genNotificationId) (emailKey o p) e) ∧
      (jsAttempts p.attempts + 1 < cfg.MAX_ATTEMPTS →
        (emailHandler cfg o (.ok p)).1.filter isRetry =
          [.scheduleRepublish "email" { p with attempts := some (jsAttempts p.attempts + 1) }
            (2000 * 2 ^ jsAttempts p.attempts)])) := by
  refine ⟨?_, ?_, ?_, ?_, ?_⟩
  · intro cfg o msg r hget hset hsetf
    cases msg with
    | invalidJson => simp [emailHandler, countAcks, isAck]
    | ok p =>
      cases r with
      | some v => simp [emailHandler, hget, countAcks, isAck]
      | none =>
        simp only [emailHandler, hget, hset, prependEvs, countAcks_append]
        have h := emailTry_ok cfg o p (jsOr p.notification_id o.genNotificationId)
          (emailKey o p) hsetf
        refine ⟨?_, h.2⟩
        rw [h.1]
        simp [countAcks, isAck]
  · intro cfg o p e h
    refine ⟨?_, ?_, ?_⟩ <;> simp [emailHandler, h, countAcks, isAck, isRetry]
  · intro cfg o p e hget hset
    refine ⟨?_, ?_, ?_⟩ <;> simp [emailHandler, hget, hset, countAcks, isAck, isRetry]
  · intro cfg o p e toAddr hget hset hem hsend
    constructor
    · simp only [emailHandler, hget, hset, emailTry, hem, hsend, prependEvs]
      simp
    · intro hlt
      simp only [emailHandler, hget, hset, emailTry, hem, hsend, prependEvs, worker_catch]
      rw [if_neg (by omega)]
      simp [isRetry]
  · intro cfg o p e toAddr hget hset hem hsend hdel
    constructor
    · simp only [emailHandler, hget, hset, emailTry, hem, hsend, hdel, prependEvs]
      simp
    · intro hlt
      simp only [emailHandler, hget, hset, emailTry, hem, hsend, hdel, prependEvs,
        worker_catch]
      rw [if_neg (by omega)]
      simp [isRetry]

/-- Witness for C3 (amended): a healthy environment delivering a message
with a valid recipient ends completed with exactly one ack. -/
theorem claim_c3_infra_error_handling_witness :
    countAcks (emailHandler defaultConfig c3_healthy_oracles (.ok c1_payload)).1 = 1 ∧
      (emailHandler defaultConfig c3_healthy_oracles (.ok c1_payload)).2 = .completed :=
  claim_c3_infra_error_handling.1 defaultConfig c3_healthy_oracles (.ok c1_payload) none
    rfl rfl rfl

/-- C7: recipient validation and send-outcome classification.  The email
worker raises the recipient-missing delivery error when `metadata.email`
is absent or empty; the push worker raises `push_token_missing` when
`metadata.push_token` is absent, and a delivery error (one of
`push_token_missing` / `invalid_push_token`) when the token is present but
not a string of length at least 10; an FCM response whose `results` array
holds any error entry is treated as failed with the first error entry's
message (falling back to `fcm_error` only for an empty message). -/
theorem claim_c7_validation_classification :
    (∀ (cfg : Config) (o : EmailOracles) (p : Payload) (nid key : String),
      p.metadata.bind (fun m => m.email) = none ∨
        p.metadata.bind (fun m => m.email) = some "" →
      emailTry cfg o p nid key =
        worker_catch cfg o.setFailed o.now "email" p nid key
          "recipient email missing in metadata.email") ∧
    (∀ (cfg : Config) (o : PushOracles) (p : Payload) (nid key : String),
      p.metadata.bind (fun m => m.push_token) = none →
      pushTry cfg o p nid key =
        worker_catch cfg o.setFailed o.now "push" p nid key "push_token_missing") ∧
    (∀ (cfg : Config) (o : PushOracles) (p : Payload) (nid key : String) (t : JsVal),
      p.metadata.bind (fun m => m.push_token) = some t →
      (∀ s, t = JsVal.str s → s.length < 10) →
      pushTry cfg o p nid key =
        worker_catch cfg o.setFailed o.now "push" p nid key
          (if jsValFalsy t then "push_token_missing" else "invalid_push_token")) ∧
    (∀ (cfg : Config) (o : PushOracles) (p : Payload) (nid key s : String)
       (rs : List FcmResult),
      p.metadata.bind (fun m => m.push_token) = some (JsVal.str s) →
      s ≠ "" → ¬ s.length < 10 →
      o.sendResult = .ok { results := some rs } →
      rs.any (fun r => r.error.isSome) = true →
      pushTry cfg o p nid key =
        prependEvs [.fcmSend s (build_fcm_payload p.metadata p.vars)]
          (worker_catch cfg o.setFailed o.now "push" p nid key (firstFcmError rs))) ∧
    (∀ (r : FcmResult) (rs : List FcmResult) (fe : FcmError),
      r.error = some fe → fe.message ≠ "" → firstFcmError (r :: rs) = fe.message) := by
  refine ⟨?_, ?_, ?_, ?_, ?_⟩
  · intro cfg o p nid key h
    have hj : jsTruthy (p.metadata.bind (fun m => m.email)) = none := by
      rcases h with h | h <;> simp [jsTruthy, h]
    simp only [emailTry, hj]
  · intro cfg o p nid key h
    simp only [pushTry, h]
  · intro cfg o p nid key t h hshort
    cases t with
    | str s =>
      rcases eq_or_ne s "" with rfl | hs
      · simp [pushTry, h, jsValFalsy]
      · simp [pushTry, h, jsValFalsy, hs, hshort s rfl]
    | num n =>
      rcases eq_or_ne n 0 with rfl | hn
      · simp [pushTry, h, jsValFalsy]
      · simp [pushTry, h, jsValFalsy, hn]
    | bool b => cases b <;> simp [pushTry, h, jsValFalsy]
    | null => simp [pushTry, h, jsValFalsy]
  · intro cfg o p nid key s rs h hne hlen hsend herr
    simp [pushTry, h, jsValFalsy, hne, hlen, hsend, herr]
  · intro r rs fe h hm
    simp [firstFcmError, List.find?, h, hm]

/-- Witness for C7: a push message without any metadata raises
`push_token_missing`. -/
theorem claim_c7_validation_classification_witness :
    pushTry defaultConfig c7_push_oracles {} "n1" "k1" =
      worker_catch defaultConfig c7_push_oracles.setFailed c7_push_oracles.now "push" {}
        "n1" "k1" "push_token_missing" :=
  claim_c7_validation_classification.2.1 defaultConfig c7_push_oracles {} "n1" "k1" rfl

/-- C1 (divergence at the failing input): the welcome email whose first
SMTP send fails transiently.  The first delivery writes `processing`,
observes the send failure and schedules the republish of the payload with
attempts = 1; the redelivery of that payload — although SMTP would now
succeed — finds the `processing` record at the idempotency check and is
acked without validation, render or send.  Across both deliveries exactly
one external send invocation happens and the final StatusRecord stays
`processing`, not `delivered` with two sends as the claim states. -/
theorem claim_c1_retry_suppressed :
    c1_first_run.1.filter isRetry =
      [.scheduleRepublish "email" c1_retry_payload 2000] ∧
    c1_second_run = ([.redisGet "email:idempotency:r1", .ack], .completed) ∧
    countSends (c1_first_run.1 ++ c1_second_run.1) = 1 ∧
    (applyWrites c1_store_after_first c1_second_run.1).lookup "email:idempotency:r1" =
      some { notification_id := "gn1", status := .processing } := by
  refine ⟨?_, ?_, ?_, ?_⟩ <;> decide

/-- C2 (divergence at the failing input): an authenticated first
submission.  The route passes the TTL to `redis.set` as a bare third
argument, so ioredis sends `SET idemp:r1 <record> 86400` — which the
Redis `SET` grammar rejects as a syntax error (the well-formed option
list would be `EX 86400`, as the workers use).  The write is therefore
refused, the handler crashes on the rejected call, the store is left
unchanged and no publish happens — no `pending` record with the
idempotency TTL is ever stored. -/
theorem claim_c2_pending_ttl_rejected :
    notifications_post "secret" 86400 [] (some "secret") c2_body (.ok ()) "t0" =
      ([.redisGet "idemp:r1",
        .redisCmd ["SET", "idemp:r1", pendingRecordStr, "86400"]],
       .crashed "ERR syntax error", []) ∧
    validSetOpts ["86400"] = false ∧
    validSetOpts ["EX", "86400"] = true := by
  refine ⟨rfl, rfl, rfl⟩

/-- C4: an authenticated submission whose `idemp:<request_id>` record is
present (a nonempty stored value) is answered 200 with the stored value
and message `duplicate_request`; the only effect is the idempotency read —
no publish, no store command — and the store is returned unchanged. -/
theorem claim_c4_duplicate_short_circuit (API_KEY : String) (ttl : Nat)
    (store : List (String × String)) (body : NotificationBody)
    (pub : Except String Unit) (now v : String)
    (hk : API_KEY ≠ "")
    (hv : store.lookup ("idemp:" ++ body.request_id) = some v) (hvne : v ≠ "") :
    notifications_post API_KEY ttl store (some API_KEY) body pub now =
      ([.redisGet ("idemp:" ++ body.request_id)],
       .reply 200 (createResponse true (some (.str v)) none "duplicate_request"
         (some duplicateMeta)),
       store) := by
  simp [notifications_post, jsTruthy, hk, hv, hvne]

/-- Witness for C4: a resubmission of request r1 with a stored record. -/
theorem claim_c4_duplicate_short_circuit_witness :
    notifications_post "secret" 86400 [("idemp:r1", "stored")] (some "secret") c2_body
      (.ok ()) "t0" =
      ([.redisGet "idemp:r1"],
       .reply 200 (createResponse true (some (.str "stored")) none "duplicate_request"
         (some duplicateMeta)),
       [("idemp:r1", "stored")]) :=
  claim_c4_duplicate_short_circuit "secret" 86400 [("idemp:r1", "stored")] c2_body
    (.ok ()) "t0" "stored" (by decide) (by decide) (by decide)

/-- C8: `render_template` is a total function on strings (hence never
throws); on the welcome and OTP templates every placeholder expands to
the variable's value — `jsGet` yields the value when the key is present
and the empty string when it is unknown — and any other `template_code`
falls back to the generic template. -/
theorem claim_c8_render_total_substitution (v : List (String × String)) (code : String)
    (hc : code ≠ "welcome_v1" ∧ code ≠ "otp_v1") :
    render_template "welcome_v1" v =
      "<p>Hi " ++ (jsGet v "name" ++ (", welcome! Click <a href=\"" ++
        (jsGet v "link" ++ "\">here</a>.</p>"))) ∧
    render_template "otp_v1" v = "<p>Your OTP is: " ++ (jsGet v "otp" ++ "</p>") ∧
    render_template code v = jsGet v "name" ++ " - notification" := by
  refine ⟨rfl, rfl, ?_⟩
  unfold render_template
  rw [if_neg hc.1, if_neg hc.2]
  rfl

/-- Witness for C8: empty variables and the unknown code "x" — unknown
keys expand to the empty string and the generic template is used. -/
theorem claim_c8_render_total_substitution_witness :
    render_template "welcome_v1" [] =
      "<p>Hi " ++ (jsGet [] "name" ++ (", welcome! Click <a href=\"" ++
        (jsGet [] "link" ++ "\">here</a>.</p>"))) ∧
    render_template "otp_v1" [] = "<p>Your OTP is: " ++ (jsGet [] "otp" ++ "</p>") ∧
    render_template "x" [] = jsGet [] "name" ++ " - notification" :=
  claim_c8_render_total_substitution [] "x" ⟨by decide, by decide⟩

/-- C9 counterexample: the 404 response of the email worker's status API
(`meta: null`) does not validate against the envelope schema, refuting
"every HTTP response produced by the gateway and the worker status APIs
validates against the uniform envelope schema". -/
theorem claim_c9_worker_meta_null_counterexample :
    validatesEnvelope (email_status_route none).2 = false ∧
    (email_status_route none).1 = 404 :=
  ⟨rfl, rfl⟩

/-- C9 (amended): every response the gateway builds through
`createResponse` validates against the uniform envelope schema (success
boolean, message string, optional data and string error, and a meta
object always containing the six pagination fields); the worker status
APIs' responses instead carry `meta: null` and do not validate. -/
theorem claim_c9_envelope_validation (success : Bool) (data : Option Json)
    (error : Option String) (message : String) (meta : Option (List (String × Json))) :
    validatesEnvelope (createResponse success data error message meta) = true ∧
    validatesEnvelope emailStatusNotFoundBody = false ∧
    (∀ d, validatesEnvelope (emailStatusOkBody d) = false) ∧
    validatesEnvelope pushStatusNotFoundBody = false ∧
    (∀ d, validatesEnvelope (pushStatusOkBody d) = false) := by
  refine ⟨?_, rfl, fun d => rfl, rfl, fun d => rfl⟩
  cases data <;> cases error <;>
    simp [createResponse, validatesEnvelope, assignMeta, defaultMeta, List.lookup]

end DNS
